import Mathlib

/-!
Verification of the Splunk driver module (`msticpy/data/drivers/splunk_driver.py`)
against its natural-language specification.

The Python module is shallowly embedded below: Python dicts with string keys
become insertion-ordered association lists, Python values that can appear in the
connection-parameter dictionaries become the inductive `PyVal`, exceptions become
explicit error constructors, and the external splunklib session factory becomes a
boolean-valued parameter of `connect`.  Every definition follows the source line
by line; the only definitions taken from the spec instead of the source are
marked `Modelled from the spec:` in their doc comments.
-/

namespace Splunk

/-- A Python value as it can appear in the connection parameter dictionaries:
a string, an integer, a boolean, or `None`. -/
inductive PyVal where
  | vstr (s : String)
  | vint (n : Int)
  | vbool (b : Bool)
  | vnone
deriving DecidableEq, Repr

/-- A Python `dict` with string keys, modelled as an insertion-ordered
association list.  Python dict semantics: lookup finds the (unique) binding,
assignment replaces an existing binding in place or appends a new one. -/
abbrev Dict := List (String × PyVal)

/-- Python `d.get(k)` / `d[k]`: the value bound to `k`, if any. -/
def dget (d : Dict) (k : String) : Option PyVal :=
  match d with
  | [] => Option.none
  | (k2, v) :: rest => if k2 = k then Option.some v else dget rest k

/-- Python `d[k] = v`: replace the binding of `k` in place, or append it. -/
def dset (d : Dict) (k : String) (v : PyVal) : Dict :=
  match d with
  | [] => [(k, v)]
  | (k2, v2) :: rest => if k2 = k then (k2, v) :: rest else (k2, v2) :: dset rest k v

/-- Python `d.update(items)`: assign each binding of `items` into `d` in order. -/
def dupdate (d : Dict) (items : List (String × PyVal)) : Dict :=
  items.foldl (fun acc kv => dset acc kv.1 kv.2) d

/-- Python `s.split(sep)` for a one-character separator `sep`, on the character
list of `s`: split at every occurrence of the separator, keeping empty pieces
(`"".split(";") == [""]`, `"a;".split(";") == ["a", ""]`). -/
def splitOnCharList (c : Char) : List Char → List (List Char)
  | [] => [[]]
  | x :: xs =>
    match splitOnCharList c xs with
    | h :: t => if x = c then [] :: h :: t else (x :: h) :: t
    | [] => if x = c then [[], []] else [[x]]

/-- Strip leading and trailing whitespace from a character list. -/
def stripChars (cs : List Char) : List Char :=
  ((cs.dropWhile Char.isWhitespace).reverse.dropWhile Char.isWhitespace).reverse

/-- Python `str.strip()` with no argument: remove surrounding whitespace. -/
def pyStrip (s : String) : String := String.mk (stripChars s.toList)

/-- Lowercase an ASCII letter, leave any other character unchanged. -/
def lowerChar (c : Char) : Char :=
  if 'A' ≤ c ∧ c ≤ 'Z' then Char.ofNat (c.toNat + 32) else c

/-- Python `str.casefold()`, modelled as ASCII lowercasing (the two coincide
on the ASCII strings this driver handles). -/
def casefold (s : String) : String := String.mk (s.toList.map lowerChar)

/-- One segment of the connection string, as in `connect` (line 86 of the
source): `cs_item.split("=")[0].strip()` is the key and `cs_item.split("=")[1]`
is the value.  A segment with no `=` makes the `[1]` index raise `IndexError`,
modelled as `Option.none`. -/
def parseSegment (item : List Char) : Option (String × PyVal) :=
  match splitOnCharList '=' item with
  | [] => Option.none
  | [_] => Option.none
  | k :: v :: _ => Option.some (pyStrip (String.mk k), PyVal.vstr (String.mk v))

/-- `connection_str.split(";")` followed by the dict comprehension of lines
83-89 of the source: every segment is parsed with `parseSegment`; an
`IndexError` in any segment aborts the whole comprehension (`Option.none`). -/
def parseConnItems (cs : String) : Option (List (String × PyVal)) :=
  (splitOnCharList ';' cs.toList).mapM parseSegment

/-- Does the character list start with `p`? -/
def charsStartWith : List Char → List Char → Bool
  | [], _ => true
  | _ :: _, [] => false
  | p :: ps, x :: xs => p = x && charsStartWith ps xs

/-- Does `pat` occur as a contiguous run anywhere in the character list? -/
def charsContain (pat : List Char) : List Char → Bool
  | [] => charsStartWith pat []
  | x :: xs => charsStartWith pat (x :: xs) || charsContain pat xs

/-- Python substring membership `pat in s`. -/
def strContains (s pat : String) : Bool := charsContain pat.toList s.toList

/-- Accumulate the value of a decimal digit string; `Option.none` on any
non-digit character. -/
def digitsVal : List Char → Nat → Option Nat
  | [], acc => Option.some acc
  | c :: cs, acc =>
    if c.isDigit then digitsVal cs (acc * 10 + (c.toNat - 48)) else Option.none

/-- Python `int(x)` for the values that can reach line 101 of the source:
integers pass through, booleans become 0/1, strings are stripped of surrounding
whitespace and read as an optionally signed decimal numeral, and everything
else (including `None` and non-numeric strings) raises, modelled as
`Option.none`.  (Underscore digit grouping is not modelled.) -/
def pyInt : PyVal → Option Int
  | PyVal.vint n => Option.some n
  | PyVal.vbool b => Option.some (if b then 1 else 0)
  | PyVal.vnone => Option.none
  | PyVal.vstr s =>
    match stripChars s.toList with
    | [] => Option.none
    | ['+'] => Option.none
    | ['-'] => Option.none
    | '+' :: rest => (digitsVal rest 0).map Int.ofNat
    | '-' :: rest => (digitsVal rest 0).map (fun n => -(Int.ofNat n))
    | cs => (digitsVal cs 0).map Int.ofNat

/-- The keys of the module-level `SPLUNK_CONNECT_ARGS` dictionary, in source
order.  The description strings (the dict values) are elided: no control flow
of the module depends on their text, only on the key set. -/
def SPLUNK_CONNECT_ARGS_KEYS : List String :=
  ["host", "port", "scheme", "verify", "owner", "app", "sharing",
   "token", "cookie", "autologin", "username", "password"]

/-- `SplunkDriver._CONNECT_DEFAULTS` (line 54 of the source).  Note the key of
the scheme default is `http_scheme`, which is not among
`SPLUNK_CONNECT_ARGS_KEYS`. -/
def CONNECT_DEFAULTS : Dict :=
  [("port", PyVal.vint 8089), ("http_scheme", PyVal.vstr "https"),
   ("verify", PyVal.vbool false)]

/-- `required_args` (line 80 of the source). -/
def requiredArgs : List String := ["host", "username", "password"]

/-- Modelled from the spec: `check_kwargs` (from `msticpy.common.utility`) is
not under src/; per spec section 4.1 connect "Validates that `host`,
`username`, `password` are present; fails with a MissingArgument error naming
the missing keys if not".  This returns the required keys absent from the
dictionary; `connect` raises when the list is nonempty. -/
def check_kwargs_missing (d : Dict) (required : List String) : List String :=
  required.filter (fun k => (dget d k).isNone)

/-- The verify coercion of lines 102-108 of the source:
`"true" in verify_opt.casefold()` when the value is a string (a substring
test), pass-through for a boolean, and `False` otherwise (including an absent
value). -/
def coerceVerify : Option PyVal → Bool
  | Option.some (PyVal.vstr s) => strContains (casefold s) "true"
  | Option.some (PyVal.vbool b) => b
  | Option.some (PyVal.vint _) => false
  | Option.some PyVal.vnone => false
  | Option.none => false

/-- The two instance attributes of `SplunkDriver` that the guards read:
`service` (is a session object stored?) and `_connected`. -/
structure SplunkDriver where
  service : Bool
  connected : Bool
deriving DecidableEq, Repr

/-- A freshly constructed driver: `self.service = None`,
`self._connected = False` (lines 59-61 of the source). -/
def initDriver : SplunkDriver := { service := false, connected := false }

/-- A driver on which `connect` has succeeded. -/
def connectedDriver : SplunkDriver := { service := true, connected := true }

/-- The exceptions `connect` can raise: an unhandled `IndexError` from a
malformed connection-string segment, `MsticpyUserError` for no parameters
(carrying the enumerated recognized parameter names), `MsticpyUserError`
"Required arguments missing" (carrying the missing keys), an unhandled
`ValueError`/`TypeError` from `int(...)`, an unhandled `KeyError` on a missing
`port` key, and `MsticpyConnectionError` from the session factory. -/
inductive ConnErr where
  | indexError
  | userInput (allArgs : List String)
  | missingArgs (missing : List String)
  | intCoercionError
  | keyError (k : String)
  | connectionError
deriving DecidableEq, Repr

/-- The result of `connect`: success carries the `arg_dict` that was passed to
the session factory (line 119 of the source). -/
inductive ConnRes where
  | ok (argDict : Dict)
  | err (e : ConnErr)
deriving DecidableEq, Repr

/-- The arg dict of a successful `connect` result. -/
def okArgDict : ConnRes → Option Dict
  | ConnRes.ok ad => Option.some ad
  | ConnRes.err _ => Option.none

/-- The full outcome of a `connect` call: the class-level defaults dictionary
after the call (line 81 aliases it, so the call mutates it), the driver
instance state, and the raised-or-returned result. -/
structure ConnectOutcome where
  classDict : Dict
  driver : SplunkDriver
  result : ConnRes
deriving DecidableEq, Repr

/-- Python truthiness of the `connection_str` argument (`if connection_str:`):
`None` and the empty string are falsy. -/
def strTruthy : Option String → Bool
  | Option.some s => !(s == "")
  | Option.none => false

/-- Lines 101-125 of the source, after `cs_dict` has been built: coerce
`port` with `int`, coerce `verify`, check the required arguments, filter
`cs_dict` down to the recognized keys, and call the session factory.
`csDict` is the (aliased) class-level dictionary, so it is returned, with
every in-place mutation applied so far, on every path. -/
def connectAfterMerge (csDict : Dict) (driver : SplunkDriver)
    (factoryOk : Dict → Bool) : ConnectOutcome :=
  match dget csDict "port" with
  | Option.none =>
    { classDict := csDict, driver := driver,
      result := ConnRes.err (ConnErr.keyError "port") }
  | Option.some portVal =>
    match pyInt portVal with
    | Option.none =>
      { classDict := csDict, driver := driver,
        result := ConnRes.err ConnErr.intCoercionError }
    | Option.some n =>
      let d1 := dset csDict "port" (PyVal.vint n)
      let d2 := dset d1 "verify" (PyVal.vbool (coerceVerify (dget d1 "verify")))
      match check_kwargs_missing d2 requiredArgs with
      | m1 :: mrest =>
        { classDict := d2, driver := driver,
          result := ConnRes.err (ConnErr.missingArgs (m1 :: mrest)) }
      | [] =>
        let argDict := d2.filter (fun kv => SPLUNK_CONNECT_ARGS_KEYS.contains kv.1)
        if factoryOk argDict then
          { classDict := d2, driver := { service := true, connected := true },
            result := ConnRes.ok argDict }
        else
          { classDict := d2, driver := driver,
            result := ConnRes.err ConnErr.connectionError }

/-- `SplunkDriver.connect` (lines 70-125 of the source).  `cs_dict` is bound
to the class attribute `_CONNECT_DEFAULTS` itself (line 81), not to a copy, so
the class dictionary passed in as `classDict` is updated in place; the
dictionary state after the call is `ConnectOutcome.classDict`.  The external
`splunklib.client.connect` is abstracted as the predicate `factoryOk` telling
whether the session factory succeeds on a given argument dictionary. -/
def connect (classDict : Dict) (driver : SplunkDriver)
    (connectionStr : Option String) (kwargs : List (String × PyVal))
    (factoryOk : Dict → Bool) : ConnectOutcome :=
  if strTruthy connectionStr then
    match parseConnItems (connectionStr.getD "") with
    | Option.none =>
      { classDict := classDict, driver := driver,
        result := ConnRes.err ConnErr.indexError }
    | Option.some items =>
      connectAfterMerge (dupdate classDict items) driver factoryOk
  else if !kwargs.isEmpty then
    connectAfterMerge (dupdate classDict kwargs) driver factoryOk
  else
    { classDict := classDict, driver := driver,
      result := ConnRes.err (ConnErr.userInput SPLUNK_CONNECT_ARGS_KEYS) }

/-- A result record produced by the splunklib results reader: a mapping from
field name to value. -/
abbrev Record := List (String × PyVal)

/-- The Python object held by `json_response` at line 156 of the source when
`isinstance(json_response, int)` is tested: either a list of records or an
integer. -/
inductive PyObj where
  | olist (rows : List Record)
  | oint (n : Int)
deriving DecidableEq, Repr

/-- The exceptions the query and accessor paths can raise before touching the
session: Python's builtin `ConnectionError`, `MsticpyNotConnectedError`, or an
`AttributeError` from dereferencing the absent (`None`) session handle. -/
inductive QueryErr where
  | connectionError (msg : String)
  | notConnectedError (msg : String)
  | attributeError
deriving DecidableEq, Repr

/-- What `SplunkDriver.query` returns: the no-result branch (line 158 of the
source) returns the two-tuple `(None, json_response)`, carried here as the raw
count; the success branch (line 159) returns the single normalized
DataFrame, carried here as its row list. -/
inductive QueryOut where
  | noResults (rawCount : Int)
  | frame (rows : List Record)
deriving DecidableEq, Repr

/-- Result of a `query` call: a returned value or a raised exception. -/
inductive QueryRes where
  | ok (out : QueryOut)
  | err (e : QueryErr)
deriving DecidableEq, Repr

/-- Lines 153-155 of the source: `json_response = []` followed by appending
every row of the reader, so the object under test at line 156 is always the
list of materialized rows. -/
def queryMaterialize (backendRows : List Record) : PyObj := PyObj.olist backendRows

/-- The value built by the no-result branch of `query` (line 158 of the
source): the two-tuple `(None, json_response)`. -/
def queryNoResultReturn (jsonResponse : Int) : QueryOut :=
  QueryOut.noResults jsonResponse

/-- The value built by the success branch of `query` (line 159 of the source):
the single DataFrame of normalized records. -/
def querySuccessReturn (rows : List Record) : QueryOut := QueryOut.frame rows

/-- `SplunkDriver.query` (lines 127-159 of the source).  The oneshot response
of the external service for the submitted query text is abstracted as
`backendRows`, the record sequence the results reader yields. -/
def query (driver : SplunkDriver) (queryText : String)
    (backendRows : List Record) : QueryRes :=
  let _ := queryText
  if !driver.connected then
    QueryRes.err (QueryErr.connectionError "Source is not connected.")
  else if !driver.service then
    QueryRes.err QueryErr.attributeError
  else
    match queryMaterialize backendRows with
    | PyObj.oint n => QueryRes.ok (queryNoResultReturn n)
    | PyObj.olist rows => QueryRes.ok (querySuccessReturn rows)

/-- A saved search of the remote service: name and search text. -/
structure SavedSearch where
  name : String
  search : String
deriving DecidableEq, Repr

/-- A fired alert of the remote service: name and occurrence count. -/
structure FiredAlert where
  name : String
  count : Int
deriving DecidableEq, Repr

/-- Result of an accessor property: the produced two-column table (as its row
list) or a raised exception. -/
inductive TableRes (α : Type) where
  | ok (rows : List α)
  | err (e : QueryErr)
deriving DecidableEq, Repr

/-- `SplunkDriver._saved_searches` (lines 198-227 of the source).  The
`connected` guard reads the `DriverBase.connected` property, which is not
under src/; modelled from the spec: section 4.3 says the accessor requires the
driver to be connected, i.e. the property reflects the connected flag.  The
service collection is abstracted as `svcSearches`; the produced DataFrame is
its projection to (name, query) rows. -/
def saved_searches (driver : SplunkDriver)
    (svcSearches : List SavedSearch) : TableRes (String × String) :=
  if !driver.connected then
    TableRes.err (QueryErr.notConnectedError
      "Please run the connect() method before running a query.")
  else if !driver.service then
    TableRes.err QueryErr.attributeError
  else
    TableRes.ok (svcSearches.map (fun s => (s.name, s.search)))

/-- `SplunkDriver._fired_alerts` (lines 229-256 of the source).  Same
`connected` guard modelling as `saved_searches`; note the raised exception here
is Python's builtin `ConnectionError` (line 241), not
`MsticpyNotConnectedError`. -/
def fired_alerts (driver : SplunkDriver)
    (svcAlerts : List FiredAlert) : TableRes (String × Int) :=
  if !driver.connected then
    TableRes.err (QueryErr.connectionError "Source is not connected.")
  else if !driver.service then
    TableRes.err QueryErr.attributeError
  else
    TableRes.ok (svcAlerts.map (fun a => (a.name, a.count)))

/-- Python `sep.join(xs)`. -/
def strJoin (sep : String) : List String → String
  | [] => ""
  | [x] => x
  | x :: y :: rest => x ++ sep ++ strJoin sep (y :: rest)

/-- `SplunkDriver._format_list` (lines 263-267 of the source): wrap each item
in double quotes and join with commas.  (`str(item)` is the identity on the
string items modelled here.) -/
def format_list (paramList : List String) : String :=
  strJoin "," (paramList.map (fun item => "\"" ++ item ++ "\""))

/-- The shape of a value returned by `query`: a two-tuple or a single table. -/
inductive RetShape where
  | tuple2
  | single
deriving DecidableEq, Repr

/-- The shape of each `QueryOut`. -/
def retShape : QueryOut → RetShape
  | QueryOut.noResults _ => RetShape.tuple2
  | QueryOut.frame _ => RetShape.single

/-- Is the result a raised `MsticpyNotConnectedError`? -/
def isNotConnectedRes : QueryRes → Bool
  | QueryRes.err (QueryErr.notConnectedError _) => true
  | _ => false

/-- Is the result a returned no-result two-tuple? -/
def isNoResultsOut : QueryRes → Bool
  | QueryRes.ok (QueryOut.noResults _) => true
  | _ => false

/-- Is the result a raised `MsticpyUserError` for missing connection input? -/
def isUserInputErr : ConnRes → Bool
  | ConnRes.err (ConnErr.userInput _) => true
  | _ => false

/-- A session factory that always succeeds. -/
def okFactory : Dict → Bool := fun _ => true

/-- The list-formatter contract as the spec words it: each element wrapped in
double quotes, the pieces joined by commas in input order, the element text
itself untouched. -/
def formatListSpec : List String → String
  | [] => ""
  | [x] => "\"" ++ x ++ "\""
  | x :: y :: rest => "\"" ++ x ++ "\"" ++ "," ++ formatListSpec (y :: rest)

/-! ### Association-list (Python dict) lemmas -/

theorem dget_dset_same (d : Dict) (k : String) (v : PyVal) :
    dget (dset d k v) k = Option.some v := by
  induction d with
  | nil => simp [dset, dget]
  | cons kv rest ih =>
    obtain ⟨k2, v2⟩ := kv
    by_cases h : k2 = k
    · subst h; simp [dset, dget]
    · simp [dset, dget, h, ih]

theorem dget_dset_diff (d : Dict) (k : String) (v : PyVal) (k2 : String)
    (h : k ≠ k2) : dget (dset d k v) k2 = dget d k2 := by
  induction d with
  | nil => simp [dset, dget, h]
  | cons kv rest ih =>
    obtain ⟨k3, v3⟩ := kv
    by_cases h2 : k3 = k
    · subst h2; simp [dset, dget, h]
    · simp [dset, dget, h2, ih]

theorem dget_dupdate_notmem (kw : List (String × PyVal)) (d : Dict) (k : String)
    (h : k ∉ kw.map Prod.fst) : dget (dupdate d kw) k = dget d k := by
  induction kw generalizing d with
  | nil => rfl
  | cons kv rest ih =>
    obtain ⟨a, b⟩ := kv
    have ha : a ≠ k := by
      intro e
      exact h (by simp [e])
    have hr : k ∉ rest.map Prod.fst := by
      intro e
      exact h (by simp [e])
    calc dget (dupdate d ((a, b) :: rest)) k
        = dget (dupdate (dset d a b) rest) k := rfl
      _ = dget (dset d a b) k := ih (dset d a b) hr
      _ = dget d k := dget_dset_diff d a b k ha

theorem dget_filter_of_none (p : String → Bool) (d : Dict) (k : String)
    (h : dget d k = Option.none) :
    dget (d.filter (fun kv => p kv.1)) k = Option.none := by
  induction d with
  | nil => simp [dget]
  | cons kv rest ih =>
    obtain ⟨k2, v2⟩ := kv
    by_cases h2 : k2 = k
    · subst h2; simp [dget] at h
    · rw [dget, if_neg h2] at h
      by_cases hp : p k2
      · simp [List.filter_cons, hp, dget, h2, ih h]
      · simp [List.filter_cons, hp, ih h]

theorem dget_filter_of_notkey (p : String → Bool) (d : Dict) (k : String)
    (h : p k = false) :
    dget (d.filter (fun kv => p kv.1)) k = Option.none := by
  induction d with
  | nil => simp [dget]
  | cons kv rest ih =>
    obtain ⟨k2, v2⟩ := kv
    by_cases h2 : k2 = k
    · subst h2; simp [List.filter_cons, h, ih]
    · by_cases hp : p k2
      · simp [List.filter_cons, hp, dget, h2, ih]
      · simp [List.filter_cons, hp, ih]

theorem dget_filter_of_some (p : String → Bool) (d : Dict) (k : String) (v : PyVal)
    (hv : dget d k = Option.some v) (hp : p k = true) :
    dget (d.filter (fun kv => p kv.1)) k = Option.some v := by
  induction d with
  | nil => simp [dget] at hv
  | cons kv rest ih =>
    obtain ⟨k2, v2⟩ := kv
    by_cases h2 : k2 = k
    · subst h2
      rw [dget, if_pos rfl] at hv
      simp [List.filter_cons, hp, dget, hv]
    · rw [dget, if_neg h2] at hv
      by_cases hq : p k2
      · simp [List.filter_cons, hq, dget, h2, ih hv]
      · simp [List.filter_cons, hq, ih hv]

/-! ### Python `str.split` lemmas -/

theorem splitOnCharList_cons_form (c : Char) (l : List Char) :
    ∃ h t, splitOnCharList c l = h :: t := by
  induction l with
  | nil => exact ⟨[], [], rfl⟩
  | cons x xs ih =>
    obtain ⟨h, t, he⟩ := ih
    by_cases hx : x = c
    · exact ⟨[], h :: t, by simp [splitOnCharList, he, hx]⟩
    · exact ⟨x :: h, t, by simp [splitOnCharList, he, hx]⟩

theorem splitOnCharList_append (c : Char) (k rest : List Char) (hk : c ∉ k) :
    splitOnCharList c (k ++ c :: rest) = k :: splitOnCharList c rest := by
  induction k with
  | nil =>
    obtain ⟨h, t, he⟩ := splitOnCharList_cons_form c rest
    simp [splitOnCharList, he]
  | cons a as ih =>
    have ha : ¬ a = c := by
      intro e
      exact hk (by simp [e])
    have hk2 : c ∉ as := by
      intro e
      exact hk (List.mem_cons_of_mem _ e)
    simp [splitOnCharList, ih hk2, ha]

theorem splitOnCharList_head (c : Char) (l : List Char) :
    ∃ t, splitOnCharList c l = l.takeWhile (fun x => x != c) :: t := by
  induction l with
  | nil => exact ⟨[], rfl⟩
  | cons x xs ih =>
    obtain ⟨t, ht⟩ := ih
    by_cases hx : x = c
    · subst hx
      exact ⟨xs.takeWhile (fun y => y != x) :: t,
        by simp [splitOnCharList, ht, List.takeWhile_cons]⟩
    · exact ⟨t, by simp [splitOnCharList, ht, hx, List.takeWhile_cons]⟩

theorem parseSegment_eq (k rest : List Char) (hk : '=' ∉ k) :
    parseSegment (k ++ '=' :: rest) =
      Option.some (pyStrip (String.mk k),
        PyVal.vstr (String.mk (rest.takeWhile (fun c => c != '=')))) := by
  obtain ⟨t, ht⟩ := splitOnCharList_head '=' rest
  have h1 : splitOnCharList '=' (k ++ '=' :: rest) =
      k :: rest.takeWhile (fun c => c != '=') :: t := by
    rw [splitOnCharList_append '=' k rest hk, ht]
  simp [parseSegment, h1]

/-! ### Substring containment lemmas -/

theorem charsStartWith_iff (p l : List Char) :
    charsStartWith p l = true ↔ ∃ post, l = p ++ post := by
  induction p generalizing l with
  | nil => simp [charsStartWith]
  | cons a as ih =>
    cases l with
    | nil => simp [charsStartWith]
    | cons x xs =>
      simp only [charsStartWith, Bool.and_eq_true, decide_eq_true_eq, ih]
      constructor
      · rintro ⟨rfl, post, rfl⟩
        exact ⟨post, rfl⟩
      · rintro ⟨post, he⟩
        injection he with h1 h2
        exact ⟨h1.symm, post, h2⟩

theorem charsContain_iff (p l : List Char) :
    charsContain p l = true ↔ ∃ pre post, l = pre ++ p ++ post := by
  induction l with
  | nil =>
    simp only [charsContain, charsStartWith_iff]
    constructor
    · rintro ⟨post, he⟩
      exact ⟨[], post, he⟩
    · rintro ⟨pre, post, he⟩
      have h0 := List.append_eq_nil.mp he.symm
      have h1 := List.append_eq_nil.mp h0.1
      exact ⟨[], by simp [h1.2]⟩
  | cons x xs ih =>
    simp only [charsContain, Bool.or_eq_true, charsStartWith_iff, ih]
    constructor
    · rintro (⟨post, he⟩ | ⟨pre, post, he⟩)
      · exact ⟨[], post, by simpa using he⟩
      · exact ⟨x :: pre, post, by simp [he]⟩
    · rintro ⟨pre, post, he⟩
      cases pre with
      | nil =>
        left
        exact ⟨post, by simpa using he⟩
      | cons y ys =>
        right
        injection he with h1 h2
        exact ⟨ys, post, h2⟩

/-! ### `connect` lemmas -/

theorem check_kwargs_missing_dset (csDict : Dict) (n : Int) (vv : PyVal) :
    check_kwargs_missing (dset (dset csDict "port" (PyVal.vint n)) "verify" vv)
        requiredArgs =
      check_kwargs_missing csDict requiredArgs := by
  have e : ∀ x : String, ¬ ("verify" : String) = x → ¬ ("port" : String) = x →
      dget (dset (dset csDict "port" (PyVal.vint n)) "verify" vv) x = dget csDict x := by
    intro x h1 h2
    rw [dget_dset_diff _ _ _ _ h1, dget_dset_diff _ _ _ _ h2]
  simp [check_kwargs_missing, requiredArgs, List.filter,
    e "host" (by decide) (by decide),
    e "username" (by decide) (by decide),
    e "password" (by decide) (by decide)]

theorem connectAfterMerge_classDict (csDict : Dict) (driver : SplunkDriver)
    (f : Dict → Bool) (k : String) (h1 : ¬ k = "port") (h2 : ¬ k = "verify") :
    dget (connectAfterMerge csDict driver f).classDict k = dget csDict k := by
  have hvk : ("verify" : String) ≠ k := fun e => h2 e.symm
  have hpk : ("port" : String) ≠ k := fun e => h1 e.symm
  have e : ∀ n vv, dget (dset (dset csDict "port" (PyVal.vint n)) "verify" vv) k =
      dget csDict k := by
    intro n vv
    rw [dget_dset_diff _ _ _ _ hvk, dget_dset_diff _ _ _ _ hpk]
  unfold connectAfterMerge
  split
  · rfl
  · split
    · rfl
    · dsimp only
      split
      · exact e _ _
      · split
        · exact e _ _
        · exact e _ _

theorem connectAfterMerge_spec (csDict : Dict) (driver : SplunkDriver)
    (f : Dict → Bool) (pv : PyVal) (n : Int)
    (hp1 : dget csDict "port" = Option.some pv)
    (hp2 : pyInt pv = Option.some n) :
    (check_kwargs_missing csDict requiredArgs = [] →
      (∀ dd, f dd = true) →
      (connectAfterMerge csDict driver f).driver.connected = true ∧
      (okArgDict (connectAfterMerge csDict driver f).result).isSome = true) ∧
    (∀ m1 mrest, check_kwargs_missing csDict requiredArgs = m1 :: mrest →
      (connectAfterMerge csDict driver f).result =
        ConnRes.err (ConnErr.missingArgs (m1 :: mrest)) ∧
      (connectAfterMerge csDict driver f).driver = driver) := by
  constructor
  · intro hnil hf
    simp [connectAfterMerge, hp1, hp2, check_kwargs_missing_dset, hnil, hf,
      okArgDict]
  · intro m1 mrest hcons
    simp [connectAfterMerge, hp1, hp2, check_kwargs_missing_dset, hcons]

theorem connectAfterMerge_result_ok (csDict : Dict) (driver : SplunkDriver)
    (f : Dict → Bool) (pv : PyVal) (n : Int)
    (hp1 : dget csDict "port" = Option.some pv)
    (hp2 : pyInt pv = Option.some n)
    (hmiss : check_kwargs_missing csDict requiredArgs = [])
    (hf : ∀ dd, f dd = true) :
    (connectAfterMerge csDict driver f).result =
      ConnRes.ok ((dset (dset csDict "port" (PyVal.vint n)) "verify"
        (PyVal.vbool (coerceVerify
          (dget (dset csDict "port" (PyVal.vint n)) "verify")))).filter
        (fun kv => SPLUNK_CONNECT_ARGS_KEYS.contains kv.1)) := by
  simp [connectAfterMerge, hp1, hp2, check_kwargs_missing_dset, hmiss, hf]

theorem connect_kwargs_eq (cd : Dict) (d : SplunkDriver) (a : String × PyVal)
    (rest : List (String × PyVal)) (f : Dict → Bool) :
    connect cd d Option.none (a :: rest) f =
      connectAfterMerge (dupdate cd (a :: rest)) d f := by
  simp [connect, strTruthy]

theorem connect_connstr_eq (cd : Dict) (d : SplunkDriver) (cs : String)
    (kw : List (String × PyVal)) (items : List (String × PyVal)) (f : Dict → Bool)
    (hcs : ¬ cs = "") (hparse : parseConnItems cs = Option.some items) :
    connect cd d (Option.some cs) kw f = connectAfterMerge (dupdate cd items) d f := by
  have ht : strTruthy (Option.some cs) = true := by simp [strTruthy, hcs]
  simp [connect, ht, hparse]

/-! ### Claim theorems -/

/-- C1 (counterexample): on a fresh driver, `query` raises the builtin
`ConnectionError` "Source is not connected.", not a `MsticpyNotConnectedError`,
so the claim that query, saved-searches and fired-alerts all fail with a
NotConnectedError before connect is false as stated. -/
theorem c1_counterexample :
    query initDriver "search index=x" [] =
      QueryRes.err (QueryErr.connectionError "Source is not connected.") ∧
    isNotConnectedRes (query initDriver "search index=x" []) = false := by
  decide

/-- C1 (amended): for every driver on which connect has not succeeded, `query`
and the fired-alerts accessor raise the builtin `ConnectionError`
"Source is not connected.", the saved-searches accessor raises
`MsticpyNotConnectedError`, and none of the three dereferences the absent
session handle. -/
theorem c1_amended (d : SplunkDriver) (queryText : String)
    (backendRows : List Record) (svcSearches : List SavedSearch)
    (svcAlerts : List FiredAlert) (h : d.connected = false) :
    query d queryText backendRows =
      QueryRes.err (QueryErr.connectionError "Source is not connected.") ∧
    saved_searches d svcSearches =
      TableRes.err (QueryErr.notConnectedError
        "Please run the connect() method before running a query.") ∧
    fired_alerts d svcAlerts =
      TableRes.err (QueryErr.connectionError "Source is not connected.") := by
  refine ⟨?_, ?_, ?_⟩ <;> simp [query, saved_searches, fired_alerts, h]

/-- C1 (witness): the amended statement instantiated on a freshly constructed
driver. -/
theorem c1_amended_witness :
    query initDriver "q" [] =
      QueryRes.err (QueryErr.connectionError "Source is not connected.") ∧
    saved_searches initDriver [] =
      TableRes.err (QueryErr.notConnectedError
        "Please run the connect() method before running a query.") ∧
    fired_alerts initDriver [] =
      TableRes.err (QueryErr.connectionError "Source is not connected.") :=
  c1_amended initDriver "q" [] [] [] (by decide)

/-- C2 (counterexample): the connection-string parser takes
`cs_item.split("=")[1]`, the text between the first and the second `=`, not
everything after the first `=`: the segment `password=a=b` parses to the value
`a`, not `a=b`. -/
theorem c2_counterexample :
    parseConnItems "password=a=b" =
      Option.some [("password", PyVal.vstr "a")] ∧
    PyVal.vstr "a" ≠ PyVal.vstr "a=b" := by
  decide

/-- C2 (amended): connect splits the connection string on `;`; within each
segment the key is the text before the first `=` (whitespace-stripped) and the
value is the text strictly between the first and the second `=` (anything
after a second `=` is dropped).  On the example string
`host=h1;port=9000;username=u;password=p` the argument dictionary passed to
the session factory maps host to h1, port to the integer 9000, username to u
and password to p. -/
theorem c2_amended :
    (∀ (k rest : List Char), '=' ∉ k →
      parseSegment (k ++ '=' :: rest) =
        Option.some (pyStrip (String.mk k),
          PyVal.vstr (String.mk (rest.takeWhile (fun c => c != '='))))) ∧
    okArgDict (connect CONNECT_DEFAULTS initDriver
        (Option.some "host=h1;port=9000;username=u;password=p") [] okFactory).result =
      Option.some [("port", PyVal.vint 9000), ("verify", PyVal.vbool false),
        ("host", PyVal.vstr "h1"), ("username", PyVal.vstr "u"),
        ("password", PyVal.vstr "p")] :=
  ⟨parseSegment_eq, by decide⟩

/-- C2 (witness): the general parsing law of the amended claim instantiated on
the segment `password=a=b`. -/
theorem c2_amended_witness :
    parseSegment ("password".toList ++ '=' :: "a=b".toList) =
      Option.some (pyStrip (String.mk "password".toList),
        PyVal.vstr (String.mk ("a=b".toList.takeWhile (fun c => c != '=')))) :=
  c2_amended.1 "password".toList "a=b".toList (by decide)

/-- C4 (counterexample): the verify coercion is the substring test
`"true" in value.casefold()`, so the string `untrue` coerces to true, while
the claim says every string other than case-insensitive true/false is forced
to false. -/
theorem c4_counterexample :
    coerceVerify (Option.some (PyVal.vstr "untrue")) = true ∧
    ¬ coerceVerify (Option.some (PyVal.vstr "untrue")) = false := by
  decide

/-- C4 (amended): a supplied string verify value coerces to true exactly when
its casefolded text contains `true` as a contiguous substring; a native
boolean passes through unchanged; an absent value or a value of any other
type is forced to false.  In particular True/true/TRUE map to true, false and
no map to false, and untrue maps to true. -/
theorem c4_amended :
    (∀ s : String, coerceVerify (Option.some (PyVal.vstr s)) = true ↔
      ∃ pre post : List Char,
        (casefold s).toList = pre ++ "true".toList ++ post) ∧
    (∀ b : Bool, coerceVerify (Option.some (PyVal.vbool b)) = b) ∧
    (∀ n : Int, coerceVerify (Option.some (PyVal.vint n)) = false) ∧
    coerceVerify (Option.some PyVal.vnone) = false ∧
    coerceVerify Option.none = false ∧
    coerceVerify (Option.some (PyVal.vstr "True")) = true ∧
    coerceVerify (Option.some (PyVal.vstr "true")) = true ∧
    coerceVerify (Option.some (PyVal.vstr "TRUE")) = true ∧
    coerceVerify (Option.some (PyVal.vstr "false")) = false ∧
    coerceVerify (Option.some (PyVal.vstr "no")) = false ∧
    coerceVerify (Option.some (PyVal.vstr "untrue")) = true := by
  refine ⟨?_, fun b => rfl, fun n => rfl, ?_, ?_, ?_, ?_, ?_, ?_, ?_, ?_⟩
  · intro s
    show strContains (casefold s) "true" = true ↔ _
    exact charsContain_iff "true".toList (casefold s).toList
  all_goals decide

/-- C5 (code bug evidence): a query whose backend yields zero records returns
a plain empty table and never takes the warning branch: the guard
`isinstance(json_response, int)` tests the list that was just built by
appending reader rows, so it is always false and the no-result warning branch
is unreachable. -/
theorem c5_zero_records :
    query connectedDriver "search index=empty" [] =
      QueryRes.ok (QueryOut.frame []) ∧
    (∀ (d : SplunkDriver) (queryText : String) (backendRows : List Record),
      isNoResultsOut (query d queryText backendRows) = false) := by
  constructor
  · decide
  · intro d qt rows
    obtain ⟨sv, cn⟩ := d
    cases cn <;> cases sv <;>
      simp [query, queryMaterialize, isNoResultsOut, queryNoResultReturn,
        querySuccessReturn]

/-- C8: the no-result branch of `query` returns a two-tuple (null table plus
the raw count) while the success branch returns a single table, so the two
branches do not return values of one consistent shape. -/
theorem c8_branch_shapes :
    (∀ n : Int, retShape (queryNoResultReturn n) = RetShape.tuple2) ∧
    (∀ rows : List Record, retShape (querySuccessReturn rows) = RetShape.single) ∧
    ¬ RetShape.tuple2 = RetShape.single := by
  exact ⟨fun n => rfl, fun rows => rfl, by decide⟩

/-- C9: the list formatter returns the comma-separated concatenation of the
elements each wrapped in double quotes, in input order and with no escaping of
the element text; on the list [a, b-comma-c] it returns the text
"a","b,c" with the embedded comma untouched. -/
theorem c9_format_list :
    (∀ l : List String, format_list l = formatListSpec l) ∧
    format_list ["a", "b,c"] = "\"a\",\"b,c\"" := by
  constructor
  · intro l
    induction l with
    | nil => rfl
    | cons x xs ih =>
      cases xs with
      | nil => rfl
      | cons y rest =>
        have h : format_list (x :: y :: rest) =
            "\"" ++ x ++ "\"" ++ "," ++ format_list (y :: rest) := rfl
        rw [h, ih]
        rfl
  · decide

/-- C3 (counterexample): a parameter set containing host, username and
password but also the non-numeric port value abc makes `connect` raise the
unhandled `ValueError` of `int(...)` instead of succeeding, so the claim is
false as stated. -/
theorem c3_counterexample :
    (connect CONNECT_DEFAULTS initDriver Option.none
      [("host", PyVal.vstr "h"), ("username", PyVal.vstr "u"),
       ("password", PyVal.vstr "p"), ("port", PyVal.vstr "abc")] okFactory).result =
      ConnRes.err ConnErr.intCoercionError ∧
    (connect CONNECT_DEFAULTS initDriver Option.none
      [("host", PyVal.vstr "h"), ("username", PyVal.vstr "u"),
       ("password", PyVal.vstr "p"), ("port", PyVal.vstr "abc")] okFactory).driver.connected =
      false := by
  decide

/-- C3 (amended): for every nonempty keyword parameter set whose merged port
value coerces to an integer, connect succeeds and marks the driver connected
when host, username and password are all present in the merged set and the
session factory succeeds; when some of the three are missing it fails with
the MissingArgument error naming exactly the missing keys and leaves the
driver unconnected. -/
theorem c3_amended (kw : List (String × PyVal)) (f : Dict → Bool)
    (hkw : kw ≠ []) (pv : PyVal) (n : Int)
    (hp1 : dget (dupdate CONNECT_DEFAULTS kw) "port" = Option.some pv)
    (hp2 : pyInt pv = Option.some n) :
    (check_kwargs_missing (dupdate CONNECT_DEFAULTS kw) requiredArgs = [] →
      (∀ dd, f dd = true) →
      (connect CONNECT_DEFAULTS initDriver Option.none kw f).driver.connected = true ∧
      (okArgDict (connect CONNECT_DEFAULTS initDriver Option.none kw f).result).isSome =
        true) ∧
    (∀ m1 mrest,
      check_kwargs_missing (dupdate CONNECT_DEFAULTS kw) requiredArgs = m1 :: mrest →
      (connect CONNECT_DEFAULTS initDriver Option.none kw f).result =
        ConnRes.err (ConnErr.missingArgs (m1 :: mrest)) ∧
      (connect CONNECT_DEFAULTS initDriver Option.none kw f).driver.connected =
        false) := by
  obtain ⟨a, rest, rfl⟩ : ∃ a rest, kw = a :: rest := by
    cases kw with
    | nil => exact absurd rfl hkw
    | cons a rest => exact ⟨a, rest, rfl⟩
  rw [connect_kwargs_eq]
  have h := connectAfterMerge_spec (dupdate CONNECT_DEFAULTS (a :: rest)) initDriver
    f pv n hp1 hp2
  refine ⟨h.1, fun m1 mrest hcons => ?_⟩
  obtain ⟨ha, hb⟩ := h.2 m1 mrest hcons
  refine ⟨ha, ?_⟩
  rw [hb]
  rfl

/-- C3 (witness): the success half of the amended claim instantiated on the
keyword set host=h, username=u, password=p with an always-succeeding session
factory. -/
theorem c3_amended_witness :
    (connect CONNECT_DEFAULTS initDriver Option.none
      [("host", PyVal.vstr "h"), ("username", PyVal.vstr "u"),
       ("password", PyVal.vstr "p")] okFactory).driver.connected = true ∧
    (okArgDict (connect CONNECT_DEFAULTS initDriver Option.none
      [("host", PyVal.vstr "h"), ("username", PyVal.vstr "u"),
       ("password", PyVal.vstr "p")] okFactory).result).isSome = true :=
  (c3_amended [("host", PyVal.vstr "h"), ("username", PyVal.vstr "u"),
      ("password", PyVal.vstr "p")] okFactory (by decide) (PyVal.vint 8089) 8089
      (by decide) (by decide)).1 (by decide) (fun dd => rfl)

/-- C6 (counterexample): a call supplying both a non-empty connection string
and keyword parameters does not raise the UserInputError the claim requires:
the connection string wins, the keyword host=OTHER is ignored, and the call
succeeds. -/
theorem c6_counterexample :
    isUserInputErr (connect CONNECT_DEFAULTS initDriver
      (Option.some "host=h;username=u;password=p")
      [("host", PyVal.vstr "OTHER")] okFactory).result = false ∧
    (connect CONNECT_DEFAULTS initDriver (Option.some "host=h;username=u;password=p")
      [("host", PyVal.vstr "OTHER")] okFactory).result =
      ConnRes.ok [("port", PyVal.vint 8089), ("verify", PyVal.vbool false),
        ("host", PyVal.vstr "h"), ("username", PyVal.vstr "u"),
        ("password", PyVal.vstr "p")] := by
  decide

/-- C6 (amended): at least one of the two input sources must be non-empty:
with neither supplied, connect raises a UserInputError enumerating the
recognized parameter names; when both are supplied no error is raised, the
connection string alone is used and the keyword parameters are ignored. -/
theorem c6_amended :
    ((connect CONNECT_DEFAULTS initDriver Option.none [] okFactory).result =
      ConnRes.err (ConnErr.userInput SPLUNK_CONNECT_ARGS_KEYS)) ∧
    (∀ (cd : Dict) (d : SplunkDriver) (cs : String)
       (kw : List (String × PyVal)) (f : Dict → Bool),
      ¬ cs = "" →
      connect cd d (Option.some cs) kw f = connect cd d (Option.some cs) [] f) := by
  constructor
  · decide
  · intro cd d cs kw f h
    have ht : strTruthy (Option.some cs) = true := by simp [strTruthy, h]
    simp [connect, ht]

/-- C6 (witness): the kwargs-are-ignored law of the amended claim
instantiated on the connection string host=h with the keyword username=u. -/
theorem c6_amended_witness :
    connect CONNECT_DEFAULTS initDriver (Option.some "host=h")
      [("username", PyVal.vstr "u")] okFactory =
    connect CONNECT_DEFAULTS initDriver (Option.some "host=h") [] okFactory :=
  c6_amended.2 CONNECT_DEFAULTS initDriver "host=h"
    [("username", PyVal.vstr "u")] okFactory (by decide)

/-- C7 (counterexample): with only host, username and password supplied, the
argument dictionary handed to the session factory carries the port and verify
defaults but no scheme key at all: the scheme default sits under the
unrecognized key http_scheme and is filtered out, while the claim says the
default scheme https reaches the factory. -/
theorem c7_counterexample :
    okArgDict (connect CONNECT_DEFAULTS initDriver Option.none
      [("host", PyVal.vstr "h"), ("username", PyVal.vstr "u"),
       ("password", PyVal.vstr "p")] okFactory).result =
      Option.some [("port", PyVal.vint 8089), ("verify", PyVal.vbool false),
        ("host", PyVal.vstr "h"), ("username", PyVal.vstr "u"),
        ("password", PyVal.vstr "p")] ∧
    (okArgDict (connect CONNECT_DEFAULTS initDriver Option.none
      [("host", PyVal.vstr "h"), ("username", PyVal.vstr "u"),
       ("password", PyVal.vstr "p")] okFactory).result).map
        (fun ad => dget ad "scheme") =
      Option.some Option.none := by
  decide

/-- C7 (amended): the class defaults are port 8089, http_scheme https and
verify false; when the caller supplies none of port, verify or scheme, the
argument set passed to the session factory carries port 8089 and verify false
but no scheme key and no http_scheme key: the scheme default is stored under
the unrecognized key http_scheme and filtered out before the factory call. -/
theorem c7_amended (kw : List (String × PyVal)) (f : Dict → Bool)
    (hkw : kw ≠ [])
    (hport : "port" ∉ kw.map Prod.fst)
    (hverify : "verify" ∉ kw.map Prod.fst)
    (hscheme : "scheme" ∉ kw.map Prod.fst)
    (hhost : (dget (dupdate CONNECT_DEFAULTS kw) "host").isSome = true)
    (huser : (dget (dupdate CONNECT_DEFAULTS kw) "username").isSome = true)
    (hpass : (dget (dupdate CONNECT_DEFAULTS kw) "password").isSome = true)
    (hf : ∀ dd, f dd = true) :
    ∃ ad,
      (connect CONNECT_DEFAULTS initDriver Option.none kw f).result =
        ConnRes.ok ad ∧
      dget ad "port" = Option.some (PyVal.vint 8089) ∧
      dget ad "verify" = Option.some (PyVal.vbool false) ∧
      dget ad "scheme" = Option.none ∧
      dget ad "http_scheme" = Option.none := by
  obtain ⟨a, rest, rfl⟩ : ∃ a rest, kw = a :: rest := by
    cases kw with
    | nil => exact absurd rfl hkw
    | cons a rest => exact ⟨a, rest, rfl⟩
  rw [connect_kwargs_eq]
  have hmp : dget (dupdate CONNECT_DEFAULTS (a :: rest)) "port" =
      Option.some (PyVal.vint 8089) := by
    rw [dget_dupdate_notmem _ _ _ hport]
    decide
  have hmv : dget (dupdate CONNECT_DEFAULTS (a :: rest)) "verify" =
      Option.some (PyVal.vbool false) := by
    rw [dget_dupdate_notmem _ _ _ hverify]
    decide
  have hms : dget (dupdate CONNECT_DEFAULTS (a :: rest)) "scheme" =
      Option.none := by
    rw [dget_dupdate_notmem _ _ _ hscheme]
    decide
  have hmiss : check_kwargs_missing (dupdate CONNECT_DEFAULTS (a :: rest))
      requiredArgs = [] := by
    have e1 : (dget (dupdate CONNECT_DEFAULTS (a :: rest)) "host").isNone = false := by
      rw [Option.isNone_eq_false_iff]
      exact hhost
    have e2 : (dget (dupdate CONNECT_DEFAULTS (a :: rest)) "username").isNone = false := by
      rw [Option.isNone_eq_false_iff]
      exact huser
    have e3 : (dget (dupdate CONNECT_DEFAULTS (a :: rest)) "password").isNone = false := by
      rw [Option.isNone_eq_false_iff]
      exact hpass
    simp [check_kwargs_missing, requiredArgs, List.filter, e1, e2, e3]
  have hok := connectAfterMerge_result_ok (dupdate CONNECT_DEFAULTS (a :: rest))
    initDriver f (PyVal.vint 8089) 8089 hmp rfl hmiss hf
  have hcv : coerceVerify (dget (dset (dupdate CONNECT_DEFAULTS (a :: rest))
      "port" (PyVal.vint 8089)) "verify") = false := by
    rw [dget_dset_diff _ _ _ _ (by decide), hmv]
    rfl
  rw [hcv] at hok
  have hd1v : dget (dset (dupdate CONNECT_DEFAULTS (a :: rest)) "port"
      (PyVal.vint 8089)) "verify" = Option.some (PyVal.vbool false) := by
    rw [dget_dset_diff _ _ _ _ (by decide)]
    exact hmv
  have hd2port : dget (dset (dset (dupdate CONNECT_DEFAULTS (a :: rest)) "port"
      (PyVal.vint 8089)) "verify" (PyVal.vbool false)) "port" =
      Option.some (PyVal.vint 8089) := by
    rw [dget_dset_diff _ _ _ _ (by decide)]
    exact dget_dset_same _ "port" (PyVal.vint 8089)
  have hd2verify : dget (dset (dset (dupdate CONNECT_DEFAULTS (a :: rest)) "port"
      (PyVal.vint 8089)) "verify" (PyVal.vbool false)) "verify" =
      Option.some (PyVal.vbool false) :=
    dget_dset_same _ "verify" (PyVal.vbool false)
  have hd2scheme : dget (dset (dset (dupdate CONNECT_DEFAULTS (a :: rest)) "port"
      (PyVal.vint 8089)) "verify" (PyVal.vbool false)) "scheme" = Option.none := by
    rw [dget_dset_diff _ _ _ _ (by decide), dget_dset_diff _ _ _ _ (by decide)]
    exact hms
  refine ⟨_, hok, ?_, ?_, ?_, ?_⟩
  · exact dget_filter_of_some _ _ "port" _ hd2port (by decide)
  · exact dget_filter_of_some _ _ "verify" _ hd2verify (by decide)
  · exact dget_filter_of_none _ _ "scheme" hd2scheme
  · exact dget_filter_of_notkey _ _ "http_scheme" (by decide)

/-- C7 (witness): the amended claim instantiated on the keyword set host=h,
username=u, password=p. -/
theorem c7_amended_witness :
    ∃ ad,
      (connect CONNECT_DEFAULTS initDriver Option.none
        [("host", PyVal.vstr "h"), ("username", PyVal.vstr "u"),
         ("password", PyVal.vstr "p")] okFactory).result = ConnRes.ok ad ∧
      dget ad "port" = Option.some (PyVal.vint 8089) ∧
      dget ad "verify" = Option.some (PyVal.vbool false) ∧
      dget ad "scheme" = Option.none ∧
      dget ad "http_scheme" = Option.none :=
  c7_amended [("host", PyVal.vstr "h"), ("username", PyVal.vstr "u"),
      ("password", PyVal.vstr "p")] okFactory (by decide) (by decide) (by decide)
    (by decide) (by decide) (by decide) (by decide) (fun dd => rfl)

/-- C10: connect binds its working dictionary to the class-level defaults
dictionary itself, so every supplied key other than the coerced port and
verify keys is written into the shared class dictionary (whatever the
outcome), and in the concrete scenario below the host and password of a
failing first call persist and are inherited by a later call on a fresh
driver instance. -/
theorem c10_shared_defaults :
    (∀ (cd : Dict) (d : SplunkDriver) (kw : List (String × PyVal))
       (f : Dict → Bool) (k : String),
      kw ≠ [] → ¬ k = "port" → ¬ k = "verify" →
      dget (connect cd d Option.none kw f).classDict k = dget (dupdate cd kw) k) ∧
    (∀ (cd : Dict) (d : SplunkDriver) (cs : String)
       (items kw : List (String × PyVal)) (f : Dict → Bool) (k : String),
      ¬ cs = "" → parseConnItems cs = Option.some items →
      ¬ k = "port" → ¬ k = "verify" →
      dget (connect cd d (Option.some cs) kw f).classDict k =
        dget (dupdate cd items) k) ∧
    ((connect CONNECT_DEFAULTS initDriver Option.none
        [("host", PyVal.vstr "h1"), ("password", PyVal.vstr "secret1")]
        okFactory).result = ConnRes.err (ConnErr.missingArgs ["username"]) ∧
      dget (connect CONNECT_DEFAULTS initDriver Option.none
        [("host", PyVal.vstr "h1"), ("password", PyVal.vstr "secret1")]
        okFactory).classDict "host" = Option.some (PyVal.vstr "h1") ∧
      dget (connect CONNECT_DEFAULTS initDriver Option.none
        [("host", PyVal.vstr "h1"), ("password", PyVal.vstr "secret1")]
        okFactory).classDict "password" = Option.some (PyVal.vstr "secret1") ∧
      (connect (connect CONNECT_DEFAULTS initDriver Option.none
          [("host", PyVal.vstr "h1"), ("password", PyVal.vstr "secret1")]
          okFactory).classDict initDriver Option.none
        [("username", PyVal.vstr "user2")] okFactory).driver.connected = true ∧
      okArgDict (connect (connect CONNECT_DEFAULTS initDriver Option.none
          [("host", PyVal.vstr "h1"), ("password", PyVal.vstr "secret1")]
          okFactory).classDict initDriver Option.none
        [("username", PyVal.vstr "user2")] okFactory).result =
        Option.some [("port", PyVal.vint 8089), ("verify", PyVal.vbool false),
          ("host", PyVal.vstr "h1"), ("password", PyVal.vstr "secret1"),
          ("username", PyVal.vstr "user2")]) := by
  refine ⟨?_, ?_, ?_⟩
  · intro cd d kw f k hkw h1 h2
    obtain ⟨a, rest, rfl⟩ : ∃ a rest, kw = a :: rest := by
      cases kw with
      | nil => exact absurd rfl hkw
      | cons a rest => exact ⟨a, rest, rfl⟩
    rw [connect_kwargs_eq, connectAfterMerge_classDict _ _ _ _ h1 h2]
  · intro cd d cs items kw f k hcs hparse h1 h2
    rw [connect_connstr_eq cd d cs kw items f hcs hparse,
      connectAfterMerge_classDict _ _ _ _ h1 h2]
  · decide

/-- C10 (witness): the in-place-update law instantiated on a password-bearing
keyword set. -/
theorem c10_shared_defaults_witness :
    dget (connect CONNECT_DEFAULTS initDriver Option.none
      [("password", PyVal.vstr "pw")] okFactory).classDict "password" =
    dget (dupdate CONNECT_DEFAULTS [("password", PyVal.vstr "pw")]) "password" :=
  c10_shared_defaults.1 CONNECT_DEFAULTS initDriver
    [("password", PyVal.vstr "pw")] okFactory "password" (by decide) (by decide)
    (by decide)

end Splunk
